import Mathlib

/-!
Shallow embedding of the box-collider bounding-volume and collision-geometry
core (BoxCollider.cpp): vectors, rigid transforms, bounding volumes, the
analytic ray test, and the collider state with its SetSize / UpdateBounds /
GetGeometry / IntersectsItself operations, followed by theorems checking the
documented behaviour. Engine scalars are embedded as exact rationals.
-/

/-- Component-wise 3D vector modelling the engine Float3 / Vector3 value type. -/
structure Float3 where
  x : ℚ
  y : ℚ
  z : ℚ
deriving DecidableEq

/-- Component-wise vector sum. -/
def Float3.add (a b : Float3) : Float3 := ⟨a.x + b.x, a.y + b.y, a.z + b.z⟩

/-- Component-wise vector difference. -/
def Float3.sub (a b : Float3) : Float3 := ⟨a.x - b.x, a.y - b.y, a.z - b.z⟩

/-- Component-wise vector product (the engine Float3 operator*). -/
def Float3.mul (a b : Float3) : Float3 := ⟨a.x * b.x, a.y * b.y, a.z * b.z⟩

/-- Scalar multiple of a vector (the engine Float3 operator* with a float). -/
def Float3.scale (c : ℚ) (v : Float3) : Float3 := ⟨c * v.x, c * v.y, c * v.z⟩

/-- Component-wise absolute value (the engine Float3::GetAbsolute). -/
def Float3.GetAbsolute (v : Float3) : Float3 := ⟨|v.x|, |v.y|, |v.z|⟩

/-- Component-wise maximum (the engine Float3::Max). -/
def Float3.Max (a b : Float3) : Float3 := ⟨max a.x b.x, max a.y b.y, max a.z b.z⟩

/-- Dot product. -/
def Float3.dot (a b : Float3) : ℚ := a.x * b.x + a.y * b.y + a.z * b.z

/-- Squared Euclidean length. -/
def Float3.normSq (v : Float3) : ℚ := v.x * v.x + v.y * v.y + v.z * v.z

/-- Modelled from the spec: the tolerance constant of the engine's
tolerance-based approximate float equality (Math::NearEqual is engine code
absent from the sources). The spec fixes a strict component-wise comparison
against a small documented constant but not its value; the theorems below do
not depend on the value. -/
def ZeroTolerance : ℚ := 1 / 1000000

/-- Modelled from the spec: Float3::NearEqual (engine code absent from the
sources) is the tolerance-based approximate equality used by change
detection, true when every component differs by less than the tolerance. -/
def Float3.NearEqual (a b : Float3) : Prop :=
  |a.x - b.x| < ZeroTolerance ∧ |a.y - b.y| < ZeroTolerance ∧ |a.z - b.z| < ZeroTolerance

instance (a b : Float3) : Decidable (Float3.NearEqual a b) := by
  unfold Float3.NearEqual
  infer_instance

/-- Row-major 3x3 matrix used for rotations. -/
structure Mat3 where
  r0 : Float3
  r1 : Float3
  r2 : Float3
deriving DecidableEq

/-- Matrix-vector product. -/
def Mat3.mulVec (M : Mat3) (v : Float3) : Float3 :=
  ⟨Float3.dot M.r0 v, Float3.dot M.r1 v, Float3.dot M.r2 v⟩

/-- Transposed-matrix-vector product (the product with the inverse rotation
when the matrix is orthonormal). -/
def Mat3.tmulVec (M : Mat3) (v : Float3) : Float3 :=
  ⟨M.r0.x * v.x + M.r1.x * v.y + M.r2.x * v.z,
   M.r0.y * v.x + M.r1.y * v.y + M.r2.y * v.z,
   M.r0.z * v.x + M.r1.z * v.y + M.r2.z * v.z⟩

/-- Matrix transpose. -/
def Mat3.transpose (M : Mat3) : Mat3 :=
  ⟨⟨M.r0.x, M.r1.x, M.r2.x⟩, ⟨M.r0.y, M.r1.y, M.r2.y⟩, ⟨M.r0.z, M.r1.z, M.r2.z⟩⟩

/-- Matrix product. -/
def Mat3.mul (M N : Mat3) : Mat3 :=
  ⟨⟨M.r0.x * N.r0.x + M.r0.y * N.r1.x + M.r0.z * N.r2.x,
    M.r0.x * N.r0.y + M.r0.y * N.r1.y + M.r0.z * N.r2.y,
    M.r0.x * N.r0.z + M.r0.y * N.r1.z + M.r0.z * N.r2.z⟩,
   ⟨M.r1.x * N.r0.x + M.r1.y * N.r1.x + M.r1.z * N.r2.x,
    M.r1.x * N.r0.y + M.r1.y * N.r1.y + M.r1.z * N.r2.y,
    M.r1.x * N.r0.z + M.r1.y * N.r1.z + M.r1.z * N.r2.z⟩,
   ⟨M.r2.x * N.r0.x + M.r2.y * N.r1.x + M.r2.z * N.r2.x,
    M.r2.x * N.r0.y + M.r2.y * N.r1.y + M.r2.z * N.r2.y,
    M.r2.x * N.r0.z + M.r2.y * N.r1.z + M.r2.z * N.r2.z⟩⟩

/-- Identity rotation. -/
def Mat3.identity : Mat3 := ⟨⟨1, 0, 0⟩, ⟨0, 1, 0⟩, ⟨0, 0, 1⟩⟩

/-- A rotation matrix: orthonormal rows and columns. -/
def Mat3.IsRigid (M : Mat3) : Prop :=
  Mat3.mul M (Mat3.transpose M) = Mat3.identity ∧
  Mat3.mul (Mat3.transpose M) M = Mat3.identity

/-- Modelled from the spec: the collider world transform (engine Transform
code absent from the sources) restricted to the parts the spec feeds into the
bounds, a rigid position + rotation with scale excluded (scale is applied
separately via the cached scale when producing geometry). The spec's own data
model names this RigidTransform. -/
structure RigidTransform where
  Orientation : Mat3
  Translation : Float3
deriving DecidableEq

/-- Identity rigid transform. -/
def RigidTransform.identity : RigidTransform := ⟨Mat3.identity, ⟨0, 0, 0⟩⟩

/-- Modelled from the spec: the engine OrientedBoundingBox (absent from the
sources) as half-extents together with the rigid placement (rotation and
translation) of its local frame. -/
structure OrientedBoundingBox where
  Extents : Float3
  Rotation : Mat3
  Translation : Float3
deriving DecidableEq

/-- Point set of an oriented box: the image of the centered axis box of the
given half-extents under the box placement. -/
def OrientedBoundingBox.Contains (B : OrientedBoundingBox) (q : Float3) : Prop :=
  ∃ l : Float3,
    |l.x| ≤ B.Extents.x ∧ |l.y| ≤ B.Extents.y ∧ |l.z| ≤ B.Extents.z ∧
    q = Float3.add B.Translation (Mat3.mulVec B.Rotation l)

/-- Modelled from the spec: OrientedBoundingBox::CreateCentered (engine code
absent from the sources) builds the axis-aligned local box from a center and
a full size. The spec prose says half-extents equal the size, but its own
concrete examples (size (2,2,2) giving the axis box from (-1,-1,-1) to
(1,1,1), and a ray from z = -5 hitting that box at distance 4) fix the
half-extents as half the size, so the model follows the examples. -/
def OrientedBoundingBox.CreateCentered (center size : Float3) : OrientedBoundingBox :=
  ⟨Float3.scale (1 / 2) size, Mat3.identity, center⟩

/-- Modelled from the spec: transforming an oriented box by a rigid world
transform rotates its frame and moves its center. -/
def OrientedBoundingBox.Transform (B : OrientedBoundingBox) (T : RigidTransform) :
    OrientedBoundingBox :=
  ⟨B.Extents, Mat3.mul T.Orientation B.Rotation,
   Float3.add (Mat3.mulVec T.Orientation B.Translation) T.Translation⟩

/-- Axis-aligned bounding box given by its minimum and maximum corner. -/
structure BoundingBox where
  Minimum : Float3
  Maximum : Float3
deriving DecidableEq

/-- Point set of an axis-aligned box. -/
def BoundingBox.Contains (b : BoundingBox) (q : Float3) : Prop :=
  b.Minimum.x ≤ q.x ∧ q.x ≤ b.Maximum.x ∧
  b.Minimum.y ≤ q.y ∧ q.y ≤ b.Maximum.y ∧
  b.Minimum.z ≤ q.z ∧ q.z ≤ b.Maximum.z

/-- Modelled from the spec: OrientedBoundingBox::GetBoundingBox (engine code
absent from the sources) derives the axis-aligned enclosing box of an
oriented box; the spec allows the closed-form support-function projection
along the world axes, used here. -/
def OrientedBoundingBox.GetBoundingBox (B : OrientedBoundingBox) : BoundingBox :=
  let s : Float3 :=
    ⟨|B.Rotation.r0.x| * B.Extents.x + |B.Rotation.r0.y| * B.Extents.y +
       |B.Rotation.r0.z| * B.Extents.z,
     |B.Rotation.r1.x| * B.Extents.x + |B.Rotation.r1.y| * B.Extents.y +
       |B.Rotation.r1.z| * B.Extents.z,
     |B.Rotation.r2.x| * B.Extents.x + |B.Rotation.r2.y| * B.Extents.y +
       |B.Rotation.r2.z| * B.Extents.z⟩
  ⟨Float3.sub B.Translation s, Float3.add B.Translation s⟩

/-- Bounding sphere, stored as its center and squared radius so the data
stays rational and executable; the radius itself is the real square root of
the stored field, written out where a theorem speaks about it. -/
structure BoundingSphere where
  Center : Float3
  RadiusSq : ℚ
deriving DecidableEq

/-- Point set of a sphere, phrased with squared distances (equivalent to
distance at most radius for the nonnegative radii produced here). -/
def BoundingSphere.Contains (s : BoundingSphere) (q : Float3) : Prop :=
  Float3.normSq (Float3.sub q s.Center) ≤ s.RadiusSq

/-- Modelled from the spec: BoundingSphere::FromBox (engine code absent from
the sources) is the minimal sphere containing an axis-aligned box: center at
the box center and radius the half-diagonal length (stored squared). -/
def BoundingSphere.FromBox (b : BoundingBox) : BoundingSphere :=
  ⟨Float3.scale (1 / 2) (Float3.add b.Minimum b.Maximum),
   Float3.normSq (Float3.scale (1 / 2) (Float3.sub b.Maximum b.Minimum))⟩

/-- Ray with an origin position and a direction, as in the engine Ray type. -/
structure Ray where
  Position : Float3
  Direction : Float3
deriving DecidableEq

/-- Point on a ray at parameter t. -/
def Ray.At (r : Ray) (t : ℚ) : Float3 :=
  Float3.add r.Position (Float3.scale t r.Direction)

/-- Accumulator of the slab-clipping ray-box walk: the entry parameter so far
(started at zero so distances are never negative), the exit parameter so far
(none while still unbounded), and the local outward normal of the face that
produced the current entry parameter (zero while no face did). -/
structure SlabAcc where
  tmin : ℚ
  tmax : Option ℚ
  nrm : Float3
deriving DecidableEq

/-- One slab of the ray-box clipping: a degenerate direction component keeps
the accumulator and rejects rays outside the slab; otherwise the parameter
interval of the slab shrinks the running interval, recording the outward
normal of the entry face whenever the entry parameter grows. -/
def slabAxis (e o d : ℚ) (enterPos enterNeg : Float3) (acc : SlabAcc) : Option SlabAcc :=
  if d = 0 then
    if -e ≤ o ∧ o ≤ e then some acc else none
  else
    let t1 := (-e - o) / d
    let t2 := (e - o) / d
    let tlo := min t1 t2
    let thi := max t1 t2
    let acc1 : SlabAcc :=
      if acc.tmin < tlo then
        ⟨tlo, acc.tmax, if 0 < d then enterPos else enterNeg⟩
      else acc
    some ⟨acc1.tmin, some (min (acc.tmax.getD thi) thi), acc1.nrm⟩

/-- Ray clipping against the axis box of half-extents e in the box's local
frame, for the local ray origin o and direction d: the three slabs shrink
the parameter interval started at zero; a surviving interval is a hit at its
lower end, with the local outward normal of the entry face. -/
def rayBoxLocal (e o d : Float3) : Option (ℚ × Float3) :=
  match slabAxis e.x o.x d.x ⟨-1, 0, 0⟩ ⟨1, 0, 0⟩ ⟨0, none, ⟨0, 0, 0⟩⟩ with
  | none => none
  | some a1 =>
    match slabAxis e.y o.y d.y ⟨0, -1, 0⟩ ⟨0, 1, 0⟩ a1 with
    | none => none
    | some a2 =>
      match slabAxis e.z o.z d.z ⟨0, 0, -1⟩ ⟨0, 0, 1⟩ a2 with
      | none => none
      | some a3 =>
        match a3.tmax with
        | none => some (a3.tmin, a3.nrm)
        | some m =>
          if a3.tmin ≤ m then some (a3.tmin, a3.nrm)
          else none

/-- Modelled from the spec: OrientedBoundingBox::Intersects (engine code
absent from the sources) is the analytic ray versus oriented-box test: the
ray is brought into the box frame and clipped against the three slabs; a hit
reports the entry parameter (zero for origins inside) and the world-space
outward normal of the entry face. A miss is the none result; there is no
error path. -/
def OrientedBoundingBox.Intersects (B : OrientedBoundingBox) (r : Ray) :
    Option (ℚ × Float3) :=
  match rayBoxLocal B.Extents
    (Mat3.tmulVec B.Rotation (Float3.sub r.Position B.Translation))
    (Mat3.tmulVec B.Rotation r.Direction) with
  | none => none
  | some (t, ln) => some (t, Mat3.mulVec B.Rotation ln)

/-- The hit point lies on the box surface and the reported normal is the
outward-facing unit normal (in world space) of a face containing it. -/
def OrientedBoundingBox.IsOutwardNormalAt (B : OrientedBoundingBox) (p n : Float3) : Prop :=
  let l := Mat3.tmulVec B.Rotation (Float3.sub p B.Translation)
  (|l.x| ≤ B.Extents.x ∧ |l.y| ≤ B.Extents.y ∧ |l.z| ≤ B.Extents.z) ∧
  ((l.x = -B.Extents.x ∧ n = Mat3.mulVec B.Rotation ⟨-1, 0, 0⟩) ∨
   (l.x = B.Extents.x ∧ n = Mat3.mulVec B.Rotation ⟨1, 0, 0⟩) ∨
   (l.y = -B.Extents.y ∧ n = Mat3.mulVec B.Rotation ⟨0, -1, 0⟩) ∨
   (l.y = B.Extents.y ∧ n = Mat3.mulVec B.Rotation ⟨0, 1, 0⟩) ∨
   (l.z = -B.Extents.z ∧ n = Mat3.mulVec B.Rotation ⟨0, 0, -1⟩) ∨
   (l.z = B.Extents.z ∧ n = Mat3.mulVec B.Rotation ⟨0, 0, 1⟩))

/-- Box collision-shape descriptor handed to the physics backend
(CollisionShape::SetBox stores the half-extents). -/
structure CollisionShape where
  BoxHalfExtents : Float3
deriving DecidableEq

/-- Observable state of one box collider: the logical fields written by the
scene object (size, center, accumulated scale, world transform), the cached
bounding volumes, the last descriptor pushed to the backend, and counters of
the recompute side effects so that spurious recomputes are observable. -/
structure BoxColliderState where
  size : Float3
  center : Float3
  cachedScale : Float3
  transform : RigidTransform
  bounds : OrientedBoundingBox
  box : BoundingBox
  sphere : BoundingSphere
  backendShape : CollisionShape
  boundsUpdates : ℕ
  geometryUpdates : ℕ
deriving DecidableEq

/-- BoxCollider::UpdateBounds: caches the oriented box built centered on the
local center from the size, transformed by the world transform, then derives
the axis-aligned enclosing box and the enclosing sphere from it. -/
def BoxCollider.UpdateBounds (s : BoxColliderState) : BoxColliderState :=
  let b := OrientedBoundingBox.Transform
    (OrientedBoundingBox.CreateCentered s.center s.size) s.transform
  let box := b.GetBoundingBox
  { s with
    bounds := b
    box := box
    sphere := BoundingSphere.FromBox box
    boundsUpdates := s.boundsUpdates + 1 }

/-- BoxCollider::GetGeometry: the effective size is the size times the
accumulated scale; its per-axis absolute value is halved and clamped to a
minimum of 0.001, giving the box descriptor's half-extents. -/
def BoxCollider.GetGeometry (s : BoxColliderState) : CollisionShape :=
  let size := Float3.mul s.size s.cachedScale
  let minSize : ℚ := 1 / 1000
  ⟨Float3.Max (Float3.scale (1 / 2) (Float3.GetAbsolute size))
    ⟨minSize, minSize, minSize⟩⟩

/-- Modelled from the spec: Collider::UpdateGeometry (base-class code absent
from the sources) pushes the current GetGeometry descriptor to the physics
backend; the model records the pushed descriptor and counts the backend
update so the side effect is observable. -/
def Collider.UpdateGeometry (s : BoxColliderState) : BoxColliderState :=
  { s with
    backendShape := BoxCollider.GetGeometry s
    geometryUpdates := s.geometryUpdates + 1 }

/-- BoxCollider::SetSize: a value near-equal to the current size returns at
once; otherwise the size is assigned and the geometry push and the bounds
recompute run synchronously. -/
def BoxCollider.SetSize (s : BoxColliderState) (value : Float3) : BoxColliderState :=
  if Float3.NearEqual value s.size then s
  else BoxCollider.UpdateBounds (Collider.UpdateGeometry { s with size := value })

/-- BoxCollider::IntersectsItself: the ray test delegates to the cached
oriented box. -/
def BoxCollider.IntersectsItself (s : BoxColliderState) (r : Ray) : Option (ℚ × Float3) :=
  s.bounds.Intersects r

/-- Collider state with the given logical fields and not yet computed
bounding volumes, as after construction and before any bounds update. -/
def mkCollider (size center cachedScale : Float3) (T : RigidTransform) : BoxColliderState :=
  { size := size
    center := center
    cachedScale := cachedScale
    transform := T
    bounds := ⟨⟨0, 0, 0⟩, Mat3.identity, ⟨0, 0, 0⟩⟩
    box := ⟨⟨0, 0, 0⟩, ⟨0, 0, 0⟩⟩
    sphere := ⟨⟨0, 0, 0⟩, 0⟩
    backendShape := ⟨⟨0, 0, 0⟩⟩
    boundsUpdates := 0
    geometryUpdates := 0 }

/-- Collider of the spec's worked examples: size (2,2,2), center at the
origin, unit accumulated scale, identity world transform. -/
def state2 : BoxColliderState :=
  mkCollider ⟨2, 2, 2⟩ ⟨0, 0, 0⟩ ⟨1, 1, 1⟩ RigidTransform.identity

/-- Ray of the spec's hit example: origin (0,0,-5), direction (0,0,1). -/
def ray4 : Ray := ⟨⟨0, 0, -5⟩, ⟨0, 0, 1⟩⟩

/-- Rational rotation about the z axis (cosine 3/5, sine 4/5). -/
def R345 : Mat3 := ⟨⟨3/5, -4/5, 0⟩, ⟨4/5, 3/5, 0⟩, ⟨0, 0, 1⟩⟩

/-- Rotated collider: size (2,2,2) under the 3-4-5 rotation about z. -/
def state9 : BoxColliderState :=
  mkCollider ⟨2, 2, 2⟩ ⟨0, 0, 0⟩ ⟨1, 1, 1⟩ ⟨R345, ⟨0, 0, 0⟩⟩

/-- Vertical ray through a corner region of the rotated collider's
axis-aligned box that the oriented box itself does not cover. -/
def ray9 : Ray := ⟨⟨13/10, 13/10, -5⟩, ⟨0, 0, 1⟩⟩

theorem slab_sat_aux {e o d t : ℚ} (hd : d ≠ 0) (he : 0 ≤ e)
    (h1 : min ((-e - o) / d) ((e - o) / d) ≤ t)
    (h2 : t ≤ max ((-e - o) / d) ((e - o) / d)) :
    -e ≤ o + t * d ∧ o + t * d ≤ e := by
  have k1 : (-e - o) / d * d = -e - o := div_mul_cancel₀ _ hd
  have k2 : (e - o) / d * d = e - o := div_mul_cancel₀ _ hd
  rcases hd.lt_or_lt with hneg | hpos
  · have h21 : (e - o) / d ≤ (-e - o) / d := by
      by_contra hlt
      push_neg at hlt
      have hmul : ((e - o) / d - (-e - o) / d) * d < 0 :=
        mul_neg_of_pos_of_neg (by linarith) hneg
      nlinarith [k1, k2]
    rw [min_eq_right h21] at h1
    rw [max_eq_left h21] at h2
    have b1 : t * d ≤ (e - o) / d * d :=
      mul_le_mul_of_nonpos_right h1 (le_of_lt hneg)
    have b2 : (-e - o) / d * d ≤ t * d :=
      mul_le_mul_of_nonpos_right h2 (le_of_lt hneg)
    constructor <;> nlinarith [k1, k2]
  · have h12 : (-e - o) / d ≤ (e - o) / d := by
      by_contra hlt
      push_neg at hlt
      have hmul : (0:ℚ) < ((-e - o) / d - (e - o) / d) * d :=
        mul_pos (by linarith) hpos
      nlinarith [k1, k2]
    rw [min_eq_left h12] at h1
    rw [max_eq_right h12] at h2
    have b1 : (-e - o) / d * d ≤ t * d :=
      mul_le_mul_of_nonneg_right h1 (le_of_lt hpos)
    have b2 : t * d ≤ (e - o) / d * d :=
      mul_le_mul_of_nonneg_right h2 (le_of_lt hpos)
    constructor <;> nlinarith [k1, k2]

theorem slabAxis_spec {e o d : ℚ} {np nn : Float3} {acc acc' : SlabAcc}
    (h : slabAxis e o d np nn acc = some acc') :
    acc.tmin ≤ acc'.tmin ∧
      ((acc'.tmin = acc.tmin ∧ acc'.nrm = acc.nrm) ∨
        (d ≠ 0 ∧ acc'.tmin = min ((-e - o) / d) ((e - o) / d) ∧
          acc'.nrm = if 0 < d then np else nn)) ∧
      (∀ m, acc.tmax = some m → ∃ m2, acc'.tmax = some m2 ∧ m2 ≤ m) ∧
      (0 ≤ e → ∀ t, acc'.tmin ≤ t → (∀ m2, acc'.tmax = some m2 → t ≤ m2) →
        -e ≤ o + t * d ∧ o + t * d ≤ e) := by
  by_cases hd : d = 0
  · unfold slabAxis at h
    rw [if_pos hd] at h
    by_cases hin : -e ≤ o ∧ o ≤ e
    · rw [if_pos hin] at h
      obtain rfl := Option.some.inj h
      refine ⟨le_refl _, Or.inl ⟨rfl, rfl⟩, fun m hm => ⟨m, hm, le_refl _⟩, ?_⟩
      intro _ t _ _
      rw [hd]
      constructor <;> nlinarith [hin.1, hin.2]
    · rw [if_neg hin] at h
      exact Option.noConfusion h
  · unfold slabAxis at h
    rw [if_neg hd] at h
    simp only [] at h
    obtain hx := Option.some.inj h
    subst hx
    by_cases hc : acc.tmin < min ((-e - o) / d) ((e - o) / d)
    · rw [if_pos hc]
      dsimp only
      refine ⟨le_of_lt hc, Or.inr ⟨hd, rfl, rfl⟩, ?_, ?_⟩
      · intro m hm
        rw [hm]
        exact ⟨min m (max ((-e - o) / d) ((e - o) / d)), by simp, min_le_left _ _⟩
      · intro he t ht htm
        have h2 : t ≤ max ((-e - o) / d) ((e - o) / d) := by
          have := htm _ rfl
          exact le_trans this (min_le_right _ _)
        exact slab_sat_aux hd he ht h2
    · rw [if_neg hc]
      dsimp only
      push_neg at hc
      refine ⟨le_refl _, Or.inl ⟨rfl, rfl⟩, ?_, ?_⟩
      · intro m hm
        rw [hm]
        exact ⟨min m (max ((-e - o) / d) ((e - o) / d)), by simp, min_le_left _ _⟩
      · intro he t ht htm
        have h1 : min ((-e - o) / d) ((e - o) / d) ≤ t := le_trans hc ht
        have h2 : t ≤ max ((-e - o) / d) ((e - o) / d) := by
          have := htm _ rfl
          exact le_trans this (min_le_right _ _)
        exact slab_sat_aux hd he h1 h2

theorem min_div_pos {e o d : ℚ} (hpos : 0 < d) (he : 0 ≤ e) :
    min ((-e - o) / d) ((e - o) / d) = (-e - o) / d := by
  apply min_eq_left
  by_contra hlt
  push_neg at hlt
  have k1 : (-e - o) / d * d = -e - o := div_mul_cancel₀ _ (ne_of_gt hpos)
  have k2 : (e - o) / d * d = e - o := div_mul_cancel₀ _ (ne_of_gt hpos)
  have hmul : (0:ℚ) < ((-e - o) / d - (e - o) / d) * d := mul_pos (by linarith) hpos
  nlinarith [k1, k2]

theorem min_div_neg {e o d : ℚ} (hneg : d < 0) (he : 0 ≤ e) :
    min ((-e - o) / d) ((e - o) / d) = (e - o) / d := by
  apply min_eq_right
  by_contra hlt
  push_neg at hlt
  have k1 : (-e - o) / d * d = -e - o := div_mul_cancel₀ _ (ne_of_lt hneg)
  have k2 : (e - o) / d * d = e - o := div_mul_cancel₀ _ (ne_of_lt hneg)
  have hmul : ((e - o) / d - (-e - o) / d) * d < 0 :=
    mul_neg_of_pos_of_neg (by linarith) hneg
  nlinarith [k1, k2]

theorem entry_face {e o d t : ℚ} (hd : d ≠ 0) (he : 0 ≤ e)
    (ht : t = min ((-e - o) / d) ((e - o) / d)) :
    (0 < d → o + t * d = -e) ∧ (d < 0 → o + t * d = e) := by
  constructor
  · intro hpos
    rw [ht, min_div_pos hpos he]
    have := div_mul_cancel₀ (-e - o) hd
    linarith
  · intro hneg
    rw [ht, min_div_neg hneg he]
    have := div_mul_cancel₀ (e - o) hd
    linarith

theorem rayBoxLocal_spec {e o d : Float3} {t : ℚ} {ln : Float3}
    (hex : 0 ≤ e.x) (hey : 0 ≤ e.y) (hez : 0 ≤ e.z)
    (h : rayBoxLocal e o d = some (t, ln)) :
    0 ≤ t ∧
      (|o.x + t * d.x| ≤ e.x ∧ |o.y + t * d.y| ≤ e.y ∧ |o.z + t * d.z| ≤ e.z) ∧
      ((t = 0 ∧ ln = ⟨0, 0, 0⟩) ∨
        (o.x + t * d.x = -e.x ∧ ln = ⟨-1, 0, 0⟩) ∨
        (o.x + t * d.x = e.x ∧ ln = ⟨1, 0, 0⟩) ∨
        (o.y + t * d.y = -e.y ∧ ln = ⟨0, -1, 0⟩) ∨
        (o.y + t * d.y = e.y ∧ ln = ⟨0, 1, 0⟩) ∨
        (o.z + t * d.z = -e.z ∧ ln = ⟨0, 0, -1⟩) ∨
        (o.z + t * d.z = e.z ∧ ln = ⟨0, 0, 1⟩)) := by
  unfold rayBoxLocal at h
  cases hA1 : slabAxis e.x o.x d.x ⟨-1, 0, 0⟩ ⟨1, 0, 0⟩ ⟨0, none, ⟨0, 0, 0⟩⟩ with
  | none => rw [hA1] at h; exact Option.noConfusion h
  | some a1 =>
  rw [hA1] at h
  dsimp only at h
  cases hA2 : slabAxis e.y o.y d.y ⟨0, -1, 0⟩ ⟨0, 1, 0⟩ a1 with
  | none => rw [hA2] at h; exact Option.noConfusion h
  | some a2 =>
  rw [hA2] at h
  dsimp only at h
  cases hA3 : slabAxis e.z o.z d.z ⟨0, 0, -1⟩ ⟨0, 0, 1⟩ a2 with
  | none => rw [hA3] at h; exact Option.noConfusion h
  | some a3 =>
  rw [hA3] at h
  dsimp only at h
  have hfin : a3.tmin = t ∧ a3.nrm = ln ∧ ∀ m2, a3.tmax = some m2 → a3.tmin ≤ m2 := by
    cases hM : a3.tmax with
    | none =>
      rw [hM] at h
      dsimp only at h
      have heq := Option.some.inj h
      exact ⟨congrArg Prod.fst heq, congrArg Prod.snd heq,
        fun m2 hm2 => Option.noConfusion hm2⟩
    | some m =>
      rw [hM] at h
      dsimp only at h
      by_cases hle : a3.tmin ≤ m
      · rw [if_pos hle] at h
        have heq := Option.some.inj h
        refine ⟨congrArg Prod.fst heq, congrArg Prod.snd heq, ?_⟩
        intro m2 hm2
        obtain rfl := Option.some.inj hm2
        exact hle
      · rw [if_neg hle] at h
        exact Option.noConfusion h
  obtain ⟨ht, hn, htmax⟩ := hfin
  subst ht
  subst hn
  obtain ⟨m1, p1, _, s1⟩ := slabAxis_spec hA1
  obtain ⟨m2, p2, x2, s2⟩ := slabAxis_spec hA2
  obtain ⟨m3, p3, x3, s3⟩ := slabAxis_spec hA3
  have hm13 : a1.tmin ≤ a3.tmin := le_trans m2 m3
  have ht0 : (0:ℚ) ≤ a3.tmin := le_trans m1 hm13
  have htm2 : ∀ m, a2.tmax = some m → a3.tmin ≤ m := by
    intro m hm
    obtain ⟨m2v, hm2v, hle⟩ := x3 m hm
    exact le_trans (htmax m2v hm2v) hle
  have htm1 : ∀ m, a1.tmax = some m → a3.tmin ≤ m := by
    intro m hm
    obtain ⟨m2v, hm2v, hle⟩ := x2 m hm
    exact le_trans (htm2 m2v hm2v) hle
  have sx := s1 hex a3.tmin hm13 htm1
  have sy := s2 hey a3.tmin m3 htm2
  have sz := s3 hez a3.tmin (le_refl _) htmax
  refine ⟨ht0, ⟨abs_le.mpr ⟨sx.1, sx.2⟩, abs_le.mpr ⟨sy.1, sy.2⟩,
    abs_le.mpr ⟨sz.1, sz.2⟩⟩, ?_⟩
  rcases p3 with ⟨e3t, e3n⟩ | ⟨hdz, hz1, hz2⟩
  · rcases p2 with ⟨e2t, e2n⟩ | ⟨hdy, hy1, hy2⟩
    · rcases p1 with ⟨e1t, e1n⟩ | ⟨hdx, hx1, hx2⟩
      · left
        constructor
        · rw [e3t, e2t, e1t]
        · rw [e3n, e2n, e1n]
      · have hface := entry_face hdx hex ((e3t.trans e2t).trans hx1)
        rcases hdx.lt_or_lt with hneg | hpos
        · right; right; left
          exact ⟨hface.2 hneg, by rw [e3n, e2n, hx2, if_neg (not_lt.mpr (le_of_lt hneg))]⟩
        · right; left
          exact ⟨hface.1 hpos, by rw [e3n, e2n, hx2, if_pos hpos]⟩
    · have hface := entry_face hdy hey (e3t.trans hy1)
      rcases hdy.lt_or_lt with hneg | hpos
      · right; right; right; right; left
        exact ⟨hface.2 hneg, by rw [e3n, hy2, if_neg (not_lt.mpr (le_of_lt hneg))]⟩
      · right; right; right; left
        exact ⟨hface.1 hpos, by rw [e3n, hy2, if_pos hpos]⟩
  · have hface := entry_face hdz hez hz1
    rcases hdz.lt_or_lt with hneg | hpos
    · right; right; right; right; right; right
      exact ⟨hface.2 hneg, by rw [hz2, if_neg (not_lt.mpr (le_of_lt hneg))]⟩
    · right; right; right; right; right; left
      exact ⟨hface.1 hpos, by rw [hz2, if_pos hpos]⟩

theorem Float3.add_sub_self (T p : Float3) : Float3.add T (Float3.sub p T) = p := by
  simp [Float3.add, Float3.sub]

theorem Mat3.mulVec_tmulVec {M : Mat3} (h : Mat3.mul M (Mat3.transpose M) = Mat3.identity)
    (v : Float3) : Mat3.mulVec M (Mat3.tmulVec M v) = v := by
  simp only [Mat3.mul, Mat3.transpose, Mat3.identity, Mat3.mk.injEq, Float3.mk.injEq] at h
  obtain ⟨⟨h11, h12, h13⟩, ⟨h21, h22, h23⟩, ⟨h31, h32, h33⟩⟩ := h
  obtain ⟨vx, vy, vz⟩ := v
  simp only [Mat3.mulVec, Mat3.tmulVec, Float3.dot, Float3.mk.injEq]
  refine ⟨?_, ?_, ?_⟩
  · linear_combination vx * h11 + vy * h12 + vz * h13
  · linear_combination vx * h21 + vy * h22 + vz * h23
  · linear_combination vx * h31 + vy * h32 + vz * h33

theorem tmul_at (M : Mat3) (P T D : Float3) (t : ℚ) :
    Mat3.tmulVec M (Float3.sub (Float3.add P (Float3.scale t D)) T) =
      ⟨(Mat3.tmulVec M (Float3.sub P T)).x + t * (Mat3.tmulVec M D).x,
       (Mat3.tmulVec M (Float3.sub P T)).y + t * (Mat3.tmulVec M D).y,
       (Mat3.tmulVec M (Float3.sub P T)).z + t * (Mat3.tmulVec M D).z⟩ := by
  simp only [Mat3.tmulVec, Float3.sub, Float3.add, Float3.scale, Float3.mk.injEq]
  refine ⟨by ring, by ring, by ring⟩

theorem contains_of_local {B : OrientedBoundingBox} {q : Float3}
    (hrig : Mat3.mul B.Rotation (Mat3.transpose B.Rotation) = Mat3.identity)
    (h1 : |(Mat3.tmulVec B.Rotation (Float3.sub q B.Translation)).x| ≤ B.Extents.x)
    (h2 : |(Mat3.tmulVec B.Rotation (Float3.sub q B.Translation)).y| ≤ B.Extents.y)
    (h3 : |(Mat3.tmulVec B.Rotation (Float3.sub q B.Translation)).z| ≤ B.Extents.z) :
    B.Contains q := by
  refine ⟨Mat3.tmulVec B.Rotation (Float3.sub q B.Translation), h1, h2, h3, ?_⟩
  rw [Mat3.mulVec_tmulVec hrig, Float3.add_sub_self]

theorem OrientedBoundingBox.intersects_spec {B : OrientedBoundingBox} {r : Ray}
    {t : ℚ} {n : Float3} (hrig : Mat3.IsRigid B.Rotation)
    (hex : 0 ≤ B.Extents.x) (hey : 0 ≤ B.Extents.y) (hez : 0 ≤ B.Extents.z)
    (hhit : B.Intersects r = some (t, n)) :
    0 ≤ t ∧ B.Contains (r.At t) ∧
      (¬ B.Contains r.Position → B.IsOutwardNormalAt (r.At t) n) := by
  unfold OrientedBoundingBox.Intersects at hhit
  cases hL : rayBoxLocal B.Extents
      (Mat3.tmulVec B.Rotation (Float3.sub r.Position B.Translation))
      (Mat3.tmulVec B.Rotation r.Direction) with
  | none => rw [hL] at hhit; exact Option.noConfusion hhit
  | some p =>
    obtain ⟨t2, ln⟩ := p
    rw [hL] at hhit
    dsimp only at hhit
    have heq := Option.some.inj hhit
    have ht2 : t2 = t := congrArg Prod.fst heq
    subst ht2
    have hn : Mat3.mulVec B.Rotation ln = n := congrArg Prod.snd heq
    subst hn
    obtain ⟨ht0, ⟨bx, hby, bz⟩, prov⟩ := rayBoxLocal_spec hex hey hez hL
    have hAt : r.At t2 = Float3.add r.Position (Float3.scale t2 r.Direction) := rfl
    have hloc := tmul_at B.Rotation r.Position B.Translation r.Direction t2
    refine ⟨ht0, ?_, ?_⟩
    · apply contains_of_local hrig.1 <;> rw [hAt, hloc]
      · exact bx
      · exact hby
      · exact bz
    · intro hout
      rcases prov with ⟨htz, hlnz⟩ | hface
      · exfalso
        apply hout
        subst htz
        apply contains_of_local hrig.1
        · simpa using bx
        · simpa using hby
        · simpa using bz
      · simp only [OrientedBoundingBox.IsOutwardNormalAt]
        refine ⟨?_, ?_⟩
        · rw [hAt, hloc]
          exact ⟨bx, hby, bz⟩
        · rw [hAt, hloc]
          rcases hface with ⟨hf, hl⟩ | ⟨hf, hl⟩ | ⟨hf, hl⟩ | ⟨hf, hl⟩ | ⟨hf, hl⟩ | ⟨hf, hl⟩
          · exact Or.inl ⟨hf, by rw [hl]⟩
          · exact Or.inr (Or.inl ⟨hf, by rw [hl]⟩)
          · exact Or.inr (Or.inr (Or.inl ⟨hf, by rw [hl]⟩))
          · exact Or.inr (Or.inr (Or.inr (Or.inl ⟨hf, by rw [hl]⟩)))
          · exact Or.inr (Or.inr (Or.inr (Or.inr (Or.inl ⟨hf, by rw [hl]⟩))))
          · exact Or.inr (Or.inr (Or.inr (Or.inr (Or.inr ⟨hf, by rw [hl]⟩))))

theorem abs_dot_le (a1 a2 a3 : ℚ) {l1 l2 l3 e1 e2 e3 : ℚ}
    (h1 : |l1| ≤ e1) (h2 : |l2| ≤ e2) (h3 : |l3| ≤ e3) :
    |a1 * l1 + a2 * l2 + a3 * l3| ≤ |a1| * e1 + |a2| * e2 + |a3| * e3 := by
  calc |a1 * l1 + a2 * l2 + a3 * l3| ≤ |a1 * l1 + a2 * l2| + |a3 * l3| := abs_add _ _
    _ ≤ |a1 * l1| + |a2 * l2| + |a3 * l3| := add_le_add_right (abs_add _ _) _
    _ = |a1| * |l1| + |a2| * |l2| + |a3| * |l3| := by rw [abs_mul, abs_mul, abs_mul]
    _ ≤ |a1| * e1 + |a2| * e2 + |a3| * e3 := by
        refine add_le_add (add_le_add ?_ ?_) ?_ <;>
          exact mul_le_mul_of_nonneg_left (by assumption) (abs_nonneg _)

theorem obb_subset_aabb (B : OrientedBoundingBox) (q : Float3)
    (h : B.Contains q) : B.GetBoundingBox.Contains q := by
  obtain ⟨l, hx, hy, hz, rfl⟩ := h
  have c1 := abs_dot_le B.Rotation.r0.x B.Rotation.r0.y B.Rotation.r0.z hx hy hz
  have c2 := abs_dot_le B.Rotation.r1.x B.Rotation.r1.y B.Rotation.r1.z hx hy hz
  have c3 := abs_dot_le B.Rotation.r2.x B.Rotation.r2.y B.Rotation.r2.z hx hy hz
  rw [abs_le] at c1 c2 c3
  simp only [OrientedBoundingBox.GetBoundingBox, BoundingBox.Contains, Float3.add,
    Float3.sub, Mat3.mulVec, Float3.dot]
  refine ⟨by linarith [c1.1], by linarith [c1.2], by linarith [c2.1],
    by linarith [c2.2], by linarith [c3.1], by linarith [c3.2]⟩

theorem aabb_subset_sphere (b : BoundingBox) (q : Float3)
    (h : b.Contains q) : (BoundingSphere.FromBox b).Contains q := by
  obtain ⟨h1, h2, h3, h4, h5, h6⟩ := h
  simp only [BoundingSphere.FromBox, BoundingSphere.Contains, Float3.normSq,
    Float3.sub, Float3.scale, Float3.add]
  have k1 : 0 ≤ (q.x - b.Minimum.x) * (b.Maximum.x - q.x) :=
    mul_nonneg (by linarith) (by linarith)
  have k2 : 0 ≤ (q.y - b.Minimum.y) * (b.Maximum.y - q.y) :=
    mul_nonneg (by linarith) (by linarith)
  have k3 : 0 ≤ (q.z - b.Minimum.z) * (b.Maximum.z - q.z) :=
    mul_nonneg (by linarith) (by linarith)
  nlinarith [k1, k2, k3]

theorem Mat3.isRigid_identity : Mat3.IsRigid Mat3.identity := by
  constructor <;> norm_num [Mat3.mul, Mat3.transpose, Mat3.identity]

theorem state2_bounds_eval :
    (BoxCollider.UpdateBounds state2).bounds = ⟨⟨1, 1, 1⟩, Mat3.identity, ⟨0, 0, 0⟩⟩ := by
  norm_num [BoxCollider.UpdateBounds, state2, mkCollider, OrientedBoundingBox.CreateCentered,
    OrientedBoundingBox.Transform, RigidTransform.identity, Mat3.identity, Mat3.mul,
    Mat3.mulVec, Float3.dot, Float3.scale, Float3.add]

theorem state2_box_eval :
    (BoxCollider.UpdateBounds state2).box = ⟨⟨-1, -1, -1⟩, ⟨1, 1, 1⟩⟩ := by
  norm_num [BoxCollider.UpdateBounds, state2, mkCollider, OrientedBoundingBox.CreateCentered,
    OrientedBoundingBox.Transform, OrientedBoundingBox.GetBoundingBox, RigidTransform.identity,
    Mat3.identity, Mat3.mul, Mat3.mulVec, Float3.dot, Float3.scale, Float3.add, Float3.sub]

theorem state2_sphere_eval :
    (BoxCollider.UpdateBounds state2).sphere = ⟨⟨0, 0, 0⟩, 3⟩ := by
  norm_num [BoxCollider.UpdateBounds, state2, mkCollider, OrientedBoundingBox.CreateCentered,
    OrientedBoundingBox.Transform, OrientedBoundingBox.GetBoundingBox, RigidTransform.identity,
    Mat3.identity, Mat3.mul, Mat3.mulVec, Float3.dot, Float3.scale, Float3.add, Float3.sub,
    BoundingSphere.FromBox, Float3.normSq]

/-- C1: GetGeometry produces a box descriptor whose half-extent on each axis
i is max(|size_i * cachedScale_i| * 0.5, 0.001); with size (0,5,5) and scale
(1,1,1) it yields half-extents (0.001, 2.5, 2.5), and with size (2,2,2) and
scale (0.1,1,1) it yields (0.1, 1, 1). -/
theorem C1_GetGeometry_halfextents :
    (∀ s : BoxColliderState, (BoxCollider.GetGeometry s).BoxHalfExtents =
      ⟨max (|s.size.x * s.cachedScale.x| * (1/2)) (1/1000),
       max (|s.size.y * s.cachedScale.y| * (1/2)) (1/1000),
       max (|s.size.z * s.cachedScale.z| * (1/2)) (1/1000)⟩) ∧
    (BoxCollider.GetGeometry
        (mkCollider ⟨0, 5, 5⟩ ⟨0, 0, 0⟩ ⟨1, 1, 1⟩ RigidTransform.identity)).BoxHalfExtents =
      ⟨1/1000, 5/2, 5/2⟩ ∧
    (BoxCollider.GetGeometry
        (mkCollider ⟨2, 2, 2⟩ ⟨0, 0, 0⟩ ⟨1/10, 1, 1⟩ RigidTransform.identity)).BoxHalfExtents =
      ⟨1/10, 1, 1⟩ := by
  refine ⟨fun s => ?_, ?_, ?_⟩
  · simp only [BoxCollider.GetGeometry, Float3.mul, Float3.GetAbsolute, Float3.scale,
      Float3.Max, Float3.mk.injEq]
    refine ⟨?_, ?_, ?_⟩ <;> rw [mul_comm]
  · norm_num [BoxCollider.GetGeometry, mkCollider, Float3.mul, Float3.GetAbsolute,
      Float3.scale, Float3.Max, abs, max_def]
  · norm_num [BoxCollider.GetGeometry, mkCollider, Float3.mul, Float3.GetAbsolute,
      Float3.scale, Float3.Max, abs, max_def]

/-- C2: with size (2,2,2), center (0,0,0) and identity transform,
UpdateBounds yields the axis box from (-1,-1,-1) to (1,1,1), and the
enclosing sphere is the minimal sphere containing that box: centered at the
origin with radius sqrt 3 (the stored squared radius is 3). -/
theorem C2_UpdateBounds_worked_example :
    (BoxCollider.UpdateBounds state2).box = ⟨⟨-1, -1, -1⟩, ⟨1, 1, 1⟩⟩ ∧
    (BoxCollider.UpdateBounds state2).sphere.Center = ⟨0, 0, 0⟩ ∧
    Real.sqrt (((BoxCollider.UpdateBounds state2).sphere.RadiusSq : ℝ)) = Real.sqrt 3 ∧
    (∀ q : Float3, (BoxCollider.UpdateBounds state2).box.Contains q →
      (BoxCollider.UpdateBounds state2).sphere.Contains q) ∧
    (∀ c1 c2 c3 r : ℝ, 0 ≤ r →
      (∀ q : Float3, (BoxCollider.UpdateBounds state2).box.Contains q →
        ((q.x : ℝ) - c1) ^ 2 + ((q.y : ℝ) - c2) ^ 2 + ((q.z : ℝ) - c3) ^ 2 ≤ r ^ 2) →
      Real.sqrt 3 ≤ r) := by
  refine ⟨state2_box_eval, by rw [state2_sphere_eval], by rw [state2_sphere_eval]; norm_num,
    ?_, ?_⟩
  · intro q hq
    rw [state2_box_eval] at hq
    rw [state2_sphere_eval]
    obtain ⟨h1, h2, h3, h4, h5, h6⟩ := hq
    simp only [BoundingSphere.Contains, Float3.normSq, Float3.sub] at *
    nlinarith [h1, h2, h3, h4, h5, h6]
  · intro c1 c2 c3 r hr hcont
    have hA := hcont ⟨1, 1, 1⟩ (by rw [state2_box_eval]; exact ⟨by norm_num, by norm_num,
      by norm_num, by norm_num, by norm_num, by norm_num⟩)
    have hB := hcont ⟨-1, -1, -1⟩ (by rw [state2_box_eval]; exact ⟨by norm_num, by norm_num,
      by norm_num, by norm_num, by norm_num, by norm_num⟩)
    push_cast at hA hB
    have h3 : (3 : ℝ) ≤ r ^ 2 := by nlinarith [sq_nonneg c1, sq_nonneg c2, sq_nonneg c3]
    calc Real.sqrt 3 ≤ Real.sqrt (r ^ 2) := Real.sqrt_le_sqrt h3
      _ = r := Real.sqrt_sq hr

/-- C2 witness: the minimality statement applied at the concrete candidate
sphere centered at the origin with radius 2 shows sqrt 3 is at most 2. -/
theorem C2_witness : Real.sqrt 3 ≤ 2 := by
  apply C2_UpdateBounds_worked_example.2.2.2.2 0 0 0 2 (by norm_num)
  intro q hq
  rw [state2_box_eval] at hq
  obtain ⟨h1, h2, h3, h4, h5, h6⟩ := hq
  have k1 : (-1 : ℝ) ≤ (q.x : ℝ) := by exact_mod_cast h1
  have k2 : ((q.x : ℝ)) ≤ 1 := by exact_mod_cast h2
  have k3 : (-1 : ℝ) ≤ (q.y : ℝ) := by exact_mod_cast h3
  have k4 : ((q.y : ℝ)) ≤ 1 := by exact_mod_cast h4
  have k5 : (-1 : ℝ) ≤ (q.z : ℝ) := by exact_mod_cast h5
  have k6 : ((q.z : ℝ)) ≤ 1 := by exact_mod_cast h6
  nlinarith [k1, k2, k3, k4, k5, k6]

/-- C3 counterexample: for size (2,2,2) the oriented box cached by
UpdateBounds has half-extents (1,1,1), not (2,2,2) as the claim's reading
of half-extents equal to the size vector would give. -/
theorem C3_counterexample :
    (BoxCollider.UpdateBounds state2).bounds.Extents = ⟨1, 1, 1⟩ ∧
    (BoxCollider.UpdateBounds state2).bounds.Extents ≠ ⟨2, 2, 2⟩ := by
  rw [state2_bounds_eval]
  norm_num

/-- C3 amended: UpdateBounds builds the local-space oriented box centered at
the collider's center with half-extents equal to HALF the size vector (so
each side length equals the corresponding size component), before
transforming it by the world transform (position + rotation). -/
theorem C3_amended_obb_construction (s : BoxColliderState) :
    (BoxCollider.UpdateBounds s).bounds =
      OrientedBoundingBox.Transform
        (OrientedBoundingBox.CreateCentered s.center s.size) s.transform ∧
    OrientedBoundingBox.CreateCentered s.center s.size =
      ⟨Float3.scale (1/2) s.size, Mat3.identity, s.center⟩ := by
  exact ⟨rfl, rfl⟩

/-- C5: SetSize with a value near-equal to the current size (every component
within the tolerance) is a no-op: the whole state — stored size, cached
oriented box, axis box, sphere, pushed backend descriptor, and both
side-effect counters — is unchanged, and the produced geometry descriptor is
unchanged too. -/
theorem C5_SetSize_noop (s : BoxColliderState) (v : Float3)
    (h : Float3.NearEqual v s.size) :
    BoxCollider.SetSize s v = s ∧
    BoxCollider.GetGeometry (BoxCollider.SetSize s v) = BoxCollider.GetGeometry s ∧
    (BoxCollider.SetSize s v).boundsUpdates = s.boundsUpdates ∧
    (BoxCollider.SetSize s v).geometryUpdates = s.geometryUpdates := by
  have heq : BoxCollider.SetSize s v = s := by
    unfold BoxCollider.SetSize
    rw [if_pos h]
  exact ⟨heq, by rw [heq], by rw [heq], by rw [heq]⟩

/-- C5 witness: perturbing the size of the example collider by half the
tolerance changes nothing. -/
theorem C5_witness :
    BoxCollider.SetSize state2 ⟨2 + 1/2000000, 2, 2⟩ = state2 ∧
    BoxCollider.GetGeometry (BoxCollider.SetSize state2 ⟨2 + 1/2000000, 2, 2⟩) =
      BoxCollider.GetGeometry state2 ∧
    (BoxCollider.SetSize state2 ⟨2 + 1/2000000, 2, 2⟩).boundsUpdates = state2.boundsUpdates ∧
    (BoxCollider.SetSize state2 ⟨2 + 1/2000000, 2, 2⟩).geometryUpdates =
      state2.geometryUpdates :=
  C5_SetSize_noop state2 ⟨2 + 1/2000000, 2, 2⟩ (by
    norm_num [Float3.NearEqual, ZeroTolerance, state2, mkCollider, abs, max_def])

/-- C6: SetSize with a value not near-equal to the current size assigns the
size and synchronously runs both the geometry push and the bounds recompute:
on return the cached volumes equal the UpdateBounds output for the new size,
the pushed descriptor equals GetGeometry of the new size, and each
side-effect counter advanced exactly once. -/
theorem C6_SetSize_change (s : BoxColliderState) (v : Float3)
    (h : ¬ Float3.NearEqual v s.size) :
    (BoxCollider.SetSize s v).size = v ∧
    (BoxCollider.SetSize s v).bounds = (BoxCollider.UpdateBounds { s with size := v }).bounds ∧
    (BoxCollider.SetSize s v).box = (BoxCollider.UpdateBounds { s with size := v }).box ∧
    (BoxCollider.SetSize s v).sphere = (BoxCollider.UpdateBounds { s with size := v }).sphere ∧
    (BoxCollider.SetSize s v).backendShape = BoxCollider.GetGeometry { s with size := v } ∧
    (BoxCollider.SetSize s v).boundsUpdates = s.boundsUpdates + 1 ∧
    (BoxCollider.SetSize s v).geometryUpdates = s.geometryUpdates + 1 := by
  unfold BoxCollider.SetSize
  rw [if_neg h]
  exact ⟨rfl, rfl, rfl, rfl, rfl, rfl, rfl⟩

/-- C6 witness: changing the example collider's size from (2,2,2) to (3,3,3)
assigns the size, rebuilds the volumes for the new size, and advances both
side-effect counters. -/
theorem C6_witness :
    (BoxCollider.SetSize state2 ⟨3, 3, 3⟩).size = ⟨3, 3, 3⟩ ∧
    (BoxCollider.SetSize state2 ⟨3, 3, 3⟩).bounds =
      (BoxCollider.UpdateBounds { state2 with size := ⟨3, 3, 3⟩ }).bounds ∧
    (BoxCollider.SetSize state2 ⟨3, 3, 3⟩).box =
      (BoxCollider.UpdateBounds { state2 with size := ⟨3, 3, 3⟩ }).box ∧
    (BoxCollider.SetSize state2 ⟨3, 3, 3⟩).sphere =
      (BoxCollider.UpdateBounds { state2 with size := ⟨3, 3, 3⟩ }).sphere ∧
    (BoxCollider.SetSize state2 ⟨3, 3, 3⟩).backendShape =
      BoxCollider.GetGeometry { state2 with size := ⟨3, 3, 3⟩ } ∧
    (BoxCollider.SetSize state2 ⟨3, 3, 3⟩).boundsUpdates = state2.boundsUpdates + 1 ∧
    (BoxCollider.SetSize state2 ⟨3, 3, 3⟩).geometryUpdates = state2.geometryUpdates + 1 :=
  C6_SetSize_change state2 ⟨3, 3, 3⟩ (by
    norm_num [Float3.NearEqual, ZeroTolerance, state2, mkCollider, abs, max_def])

/-- C10: GetGeometry is invariant under per-component sign flips of size and
scale — any two states whose per-axis products agree in absolute value give
identical descriptors — and the descriptor's half-extents are always
strictly positive. -/
theorem C10_GetGeometry_sign_invariant :
    (∀ s s2 : BoxColliderState,
      |s2.size.x * s2.cachedScale.x| = |s.size.x * s.cachedScale.x| →
      |s2.size.y * s2.cachedScale.y| = |s.size.y * s.cachedScale.y| →
      |s2.size.z * s2.cachedScale.z| = |s.size.z * s.cachedScale.z| →
      BoxCollider.GetGeometry s2 = BoxCollider.GetGeometry s) ∧
    (∀ s : BoxColliderState,
      0 < (BoxCollider.GetGeometry s).BoxHalfExtents.x ∧
      0 < (BoxCollider.GetGeometry s).BoxHalfExtents.y ∧
      0 < (BoxCollider.GetGeometry s).BoxHalfExtents.z) := by
  constructor
  · intro s s2 h1 h2 h3
    simp only [BoxCollider.GetGeometry, Float3.mul, Float3.GetAbsolute, Float3.scale,
      Float3.Max, CollisionShape.mk.injEq, Float3.mk.injEq]
    rw [h1, h2, h3]
    exact ⟨rfl, rfl, rfl⟩
  · intro s
    simp only [BoxCollider.GetGeometry, Float3.mul, Float3.GetAbsolute, Float3.scale,
      Float3.Max]
    refine ⟨?_, ?_, ?_⟩ <;> exact lt_of_lt_of_le (by norm_num) (le_max_right _ _)

/-- C10 witness: flipping the signs of some size and scale components of the
example collider leaves the descriptor unchanged. -/
theorem C10_witness :
    BoxCollider.GetGeometry
        (mkCollider ⟨-2, 2, -2⟩ ⟨0, 0, 0⟩ ⟨1, -1, 1⟩ RigidTransform.identity) =
      BoxCollider.GetGeometry state2 :=
  C10_GetGeometry_sign_invariant.1 state2
    (mkCollider ⟨-2, 2, -2⟩ ⟨0, 0, 0⟩ ⟨1, -1, 1⟩ RigidTransform.identity)
    (by norm_num [state2, mkCollider, abs, max_def])
    (by norm_num [state2, mkCollider, abs, max_def])
    (by norm_num [state2, mkCollider, abs, max_def])

/-- C4: for the size (2,2,2) collider at the origin with bounds up to date,
the ray from (0,0,-5) along (0,0,1) hits at distance 4 with normal (0,0,-1);
and whenever IntersectsItself reports a hit on a well-formed cached box
(rigid rotation, nonnegative extents), the distance is nonnegative and, for
a ray starting outside the box, the normal is the outward-facing surface
normal at the first intersection point. -/
theorem C4_IntersectsItself_hit :
    BoxCollider.IntersectsItself (BoxCollider.UpdateBounds state2) ray4 =
      some (4, ⟨0, 0, -1⟩) ∧
    (∀ (s : BoxColliderState) (r : Ray) (t : ℚ) (n : Float3),
      Mat3.IsRigid s.bounds.Rotation →
      0 ≤ s.bounds.Extents.x → 0 ≤ s.bounds.Extents.y → 0 ≤ s.bounds.Extents.z →
      BoxCollider.IntersectsItself s r = some (t, n) →
      0 ≤ t ∧ (¬ s.bounds.Contains r.Position →
        s.bounds.IsOutwardNormalAt (r.At t) n)) := by
  constructor
  · norm_num [BoxCollider.IntersectsItself, BoxCollider.UpdateBounds, state2, mkCollider,
      OrientedBoundingBox.CreateCentered, OrientedBoundingBox.Transform,
      RigidTransform.identity, Mat3.identity, Mat3.mul, Mat3.mulVec, Mat3.tmulVec,
      Float3.dot, Float3.scale, Float3.add, Float3.sub, OrientedBoundingBox.Intersects,
      rayBoxLocal, slabAxis, ray4, Option.getD]
  · intro s r t n hrig hex hey hez hhit
    have hsp := OrientedBoundingBox.intersects_spec hrig hex hey hez hhit
    exact ⟨hsp.1, fun hout => hsp.2.2 hout⟩

/-- C4 witness: the general part applied to the concrete hit of the worked
example, with the ray origin outside the box. -/
theorem C4_witness :
    (0:ℚ) ≤ 4 ∧ (BoxCollider.UpdateBounds state2).bounds.IsOutwardNormalAt
      (ray4.At 4) ⟨0, 0, -1⟩ := by
  have hg := C4_IntersectsItself_hit.2 (BoxCollider.UpdateBounds state2) ray4 4 ⟨0, 0, -1⟩
    (by rw [state2_bounds_eval]; exact Mat3.isRigid_identity)
    (by rw [state2_bounds_eval]; norm_num)
    (by rw [state2_bounds_eval]; norm_num)
    (by rw [state2_bounds_eval]; norm_num)
    C4_IntersectsItself_hit.1
  refine ⟨hg.1, hg.2 ?_⟩
  rw [state2_bounds_eval]
  rintro ⟨l, hx, hy, hz, he⟩
  have hz5 := congrArg Float3.z he
  norm_num [ray4, Float3.add, Mat3.mulVec, Mat3.identity, Float3.dot] at hz5
  have hb := abs_le.mp hz
  norm_num at hb
  linarith [hz5, hb.1, hb.2]

/-- C7: after UpdateBounds the three cached volumes are consistent: the
axis-aligned box contains every point of the oriented box, and the sphere
contains every point of the axis-aligned box. -/
theorem C7_volumes_consistent (s : BoxColliderState) (q : Float3) :
    ((BoxCollider.UpdateBounds s).bounds.Contains q →
      (BoxCollider.UpdateBounds s).box.Contains q) ∧
    ((BoxCollider.UpdateBounds s).box.Contains q →
      (BoxCollider.UpdateBounds s).sphere.Contains q) := by
  constructor
  · intro h
    exact obb_subset_aabb _ _ h
  · intro h
    exact aabb_subset_sphere _ _ h

/-- C7 witness: both containments applied to the center point of the worked
example's volumes. -/
theorem C7_witness :
    (BoxCollider.UpdateBounds state2).box.Contains ⟨0, 0, 0⟩ ∧
    (BoxCollider.UpdateBounds state2).sphere.Contains ⟨0, 0, 0⟩ := by
  have h1 : (BoxCollider.UpdateBounds state2).bounds.Contains ⟨0, 0, 0⟩ := by
    rw [state2_bounds_eval]
    refine ⟨⟨0, 0, 0⟩, by norm_num, by norm_num, by norm_num, ?_⟩
    norm_num [Float3.add, Mat3.mulVec, Mat3.identity, Float3.dot]
  have hb := (C7_volumes_consistent state2 ⟨0, 0, 0⟩).1 h1
  exact ⟨hb, (C7_volumes_consistent state2 ⟨0, 0, 0⟩).2 hb⟩

/-- C8: a ray that never enters the cached oriented box (at any nonnegative
parameter) gets the no-hit result; the miss is the none value of the
returned option — the test is total, with no error path — and the distance
and normal are simply absent from it. -/
theorem C8_ray_miss (s : BoxColliderState) (r : Ray)
    (hrig : Mat3.IsRigid s.bounds.Rotation)
    (hex : 0 ≤ s.bounds.Extents.x) (hey : 0 ≤ s.bounds.Extents.y)
    (hez : 0 ≤ s.bounds.Extents.z)
    (hmiss : ∀ t : ℚ, 0 ≤ t → ¬ s.bounds.Contains (r.At t)) :
    BoxCollider.IntersectsItself s r = none := by
  cases hI : BoxCollider.IntersectsItself s r with
  | none => rfl
  | some p =>
    obtain ⟨t, n⟩ := p
    have hsp := OrientedBoundingBox.intersects_spec hrig hex hey hez hI
    exact absurd hsp.2.1 (hmiss t hsp.1)

/-- C8 witness: a vertical ray passing at x = 5 misses the worked example's
box of half-extents (1,1,1). -/
theorem C8_witness :
    BoxCollider.IntersectsItself (BoxCollider.UpdateBounds state2)
      ⟨⟨5, 0, 0⟩, ⟨0, 0, 1⟩⟩ = none := by
  apply C8_ray_miss
  · rw [state2_bounds_eval]; exact Mat3.isRigid_identity
  · rw [state2_bounds_eval]; norm_num
  · rw [state2_bounds_eval]; norm_num
  · rw [state2_bounds_eval]; norm_num
  · intro t ht hcon
    rw [state2_bounds_eval] at hcon
    obtain ⟨l, hx, hy, hz, he⟩ := hcon
    have hx5 := congrArg Float3.x he
    norm_num [Ray.At, Float3.add, Float3.scale, Mat3.mulVec, Mat3.identity,
      Float3.dot] at hx5
    have hb := abs_le.mp hx
    norm_num at hb
    linarith [hx5, hb.1, hb.2]

/-- C9: IntersectsItself performs the ray test against the cached oriented
box, not the axis-aligned one: it literally delegates to the oriented box's
analytic test for every ray, and for the rotated collider there is a ray
(entering the axis-aligned box at parameter 9/2) that nevertheless reports
no hit. -/
theorem C9_ray_test_uses_oriented_box :
    (∀ (s : BoxColliderState) (r : Ray),
      BoxCollider.IntersectsItself s r = s.bounds.Intersects r) ∧
    ((0:ℚ) ≤ 9/2 ∧ (BoxCollider.UpdateBounds state9).box.Contains (ray9.At (9/2))) ∧
    BoxCollider.IntersectsItself (BoxCollider.UpdateBounds state9) ray9 = none := by
  refine ⟨fun s r => rfl, ⟨by norm_num, ?_⟩, ?_⟩
  · norm_num [BoxCollider.UpdateBounds, state9, mkCollider, OrientedBoundingBox.CreateCentered,
      OrientedBoundingBox.Transform, OrientedBoundingBox.GetBoundingBox, R345,
      Mat3.identity, Mat3.mul, Mat3.mulVec, Float3.dot, Float3.scale, Float3.add, Float3.sub,
      BoundingBox.Contains, Ray.At, ray9, abs, max_def]
  · norm_num [BoxCollider.IntersectsItself, BoxCollider.UpdateBounds, state9, mkCollider,
      OrientedBoundingBox.CreateCentered, OrientedBoundingBox.Transform, R345,
      Mat3.identity, Mat3.mul, Mat3.mulVec, Mat3.tmulVec, Float3.dot, Float3.scale,
      Float3.add, Float3.sub, OrientedBoundingBox.Intersects, rayBoxLocal, slabAxis,
      ray9, Option.getD]
